import Mathlib

/-!
Shallow embedding of the StudyTracker application (src/script.js).

Modelling conventions:
- Calendar dates of the form YYYY-MM-DD are modelled as epoch-day integers
  (`Int`).  Equality and order of canonical date strings agree with equality
  and order of the day numbers, and the day arithmetic performed via
  JavaScript `Date` objects (`setDate`, `getDay`, `toISOString`) is modelled
  at day granularity, assuming a UTC runtime so that local and UTC calendar
  days coincide.  Day 0 is 1970-01-01, a Thursday, so `getDay` of day `d`
  is `(d + 4) % 7` with `0` meaning Sunday.
- JavaScript numbers produced by `parseInt` are `Option Int`, with `none`
  standing for `NaN`.  `NaN` propagates through arithmetic and makes every
  comparison (`<=`, `<`, `>`) evaluate to false.
- `Date.now()` is a nonnegative count of milliseconds, modelled as a `Nat`;
  `Date.now().toString()` is `Nat.repr`.
- The localStorage slot `studyTrackerData` holds either nothing (`none`) or
  a content classified by what `JSON.parse` does with it: the empty string
  (falsy, never parsed), a string on which `JSON.parse` throws, or a string
  that parses to a JSON value.
- DOM state read by the handlers (the two filter inputs) is part of the
  application state; notifications are returned as strings.
-/

namespace StudyTracker

/-- A JavaScript number obtained from `parseInt`: an integer, or `none` for
`NaN`. -/
abbrev JSNum := Option Int

/-- JavaScript `x <= 0` where `x` may be `NaN`: any comparison with `NaN` is
false. -/
def jsLE0 : JSNum → Bool
  | none => false
  | some d => d ≤ 0

/-- JavaScript addition on possibly-`NaN` numbers: `NaN` propagates. -/
def jsAdd : JSNum → JSNum → JSNum
  | some a, some b => some (a + b)
  | _, _ => none

/-- JavaScript `x * 60` on a possibly-`NaN` number. -/
def jsMul60 : JSNum → JSNum
  | some a => some (a * 60)
  | none => none

/-- Whitespace recognised by the modelled `String.prototype.trim` (the ASCII
part of the JavaScript whitespace set, which is all the source ever feeds
it). -/
def isJsWs (c : Char) : Bool :=
  c == ' ' || c == '\t' || c == '\n' || c == '\r'

/-- JavaScript `s.trim()`: drop whitespace from both ends. -/
def jsTrim (s : String) : String :=
  ⟨((s.data.dropWhile isJsWs).reverse.dropWhile isJsWs).reverse⟩

/-- ASCII lowercasing of one character, as `toLowerCase` acts on the ASCII
range (the only range exercised by the source's subjects and filters). -/
def lowerChar (c : Char) : Char :=
  if 'A' ≤ c ∧ c ≤ 'Z' then Char.ofNat (c.toNat + 32) else c

/-- JavaScript `s.toLowerCase()`. -/
def lowerStr (s : String) : String :=
  ⟨s.data.map lowerChar⟩

/-- Scanning core of JavaScript `String.prototype.includes`: does `needle`
occur contiguously inside `hay`? -/
def includesCore (needle : List Char) : List Char → Bool
  | [] => needle.isEmpty
  | c :: rest => needle.isPrefixOf (c :: rest) || includesCore needle rest

/-- JavaScript `s.includes(needle)`. -/
def jsIncludes (s needle : String) : Bool :=
  includesCore needle.data s.data

/-- The decimal digit list of a natural number, most significant digit
first; reference function used to reason about `Nat.repr`. -/
def reprDigits (n : Nat) : List Char :=
  if n < 10 then [Nat.digitChar n]
  else reprDigits (n / 10) ++ [Nat.digitChar (n % 10)]
decreasing_by omega

/-- One study session record, as constructed by `handleFormSubmit` or read
back from storage. -/
structure StudySession where
  id : String
  subject : String
  duration : JSNum
  timeUnit : String
  date : Int
  notes : String
  timestamp : Nat
deriving DecidableEq

/-- The raw form fields handed to `handleFormSubmit`: `subject` and `notes`
as typed (before trimming), `duration` as the result of `parseInt` on the
duration field (`none` when it yields `NaN`), `timeUnit` as the raw option
value, `date` as the picked calendar day. -/
structure FormInput where
  subject : String
  duration : JSNum
  timeUnit : String
  date : Int
  notes : String
deriving DecidableEq

/-- JSON values, as produced by `JSON.parse`. -/
inductive Json where
  | null : Json
  | bool (b : Bool) : Json
  | num (n : Int) : Json
  | str (s : String) : Json
  | arr (elems : List Json) : Json
  | obj (fields : List (String × Json)) : Json

/-- Content of the `studyTrackerData` localStorage slot, classified by how
`loadFromLocalStorage` treats it: the empty string (falsy, returned as `[]`
without parsing), a string on which `JSON.parse` throws, or a string that
parses to a JSON value. -/
inductive SlotContent where
  | emptyStr : SlotContent
  | malformed (raw : String) : SlotContent
  | wellFormed (v : Json) : SlotContent

/-- Model of `loadFromLocalStorage`: `localStorage.getItem` yields `null` (`none`) or
a string; a falsy result or a `JSON.parse` exception yields `[]`; otherwise
whatever `JSON.parse` produced is returned unchecked. -/
def loadFromLocalStorage : Option SlotContent → Json
  | none => Json.arr []
  | some SlotContent.emptyStr => Json.arr []
  | some (SlotContent.malformed _) => Json.arr []
  | some (SlotContent.wellFormed v) => v

/-- Serialization of one number field by `JSON.stringify` (`NaN` serializes
as `null`). -/
def jsNumToJson : JSNum → Json
  | none => Json.null
  | some n => Json.num n

/-- Serialization of one session by `JSON.stringify`. -/
def sessionToJson (l : StudySession) : Json :=
  Json.obj [("id", Json.str l.id), ("subject", Json.str l.subject),
    ("duration", jsNumToJson l.duration), ("timeUnit", Json.str l.timeUnit),
    ("date", Json.num l.date), ("notes", Json.str l.notes),
    ("timestamp", Json.num (Int.ofNat l.timestamp))]

/-- Model of `saveToLocalStorage`: overwrite the slot with the serialized collection
(the catch branch only logs, and in this model the write succeeds). -/
def saveToLocalStorage (logs : List StudySession) : Option SlotContent :=
  some (SlotContent.wellFormed (Json.arr (logs.map sessionToJson)))

/-- The mutable application state: the `StudyTracker` instance fields
`studyLogs` and `filteredLogs`, the two filter inputs read from the DOM
(`filterSubject` as its string value, `filterDate` as `none` when the date
input is empty), and the durable slot. -/
structure AppState where
  studyLogs : List StudySession
  filteredLogs : List StudySession
  filterSubject : String
  filterDate : Option Int
  storage : Option SlotContent

/-- The predicate of `applyFilters`: subject passes when the filter is falsy
(empty) or the lowercased subject includes the lowercased filter; date
passes when the filter is falsy (absent) or equal to the session's date. -/
def logFilterPred (subjectFilter : String) (dateFilter : Option Int)
    (log : StudySession) : Bool :=
  (subjectFilter == "" || jsIncludes (lowerStr log.subject) (lowerStr subjectFilter)) &&
  (dateFilter == none || dateFilter == some log.date)

/-- The filtering step performed inside `applyFilters`. -/
def filterLogs (logs : List StudySession) (subjectFilter : String)
    (dateFilter : Option Int) : List StudySession :=
  logs.filter (logFilterPred subjectFilter dateFilter)

/-- Model of `applyFilters`: recompute `filteredLogs` from `studyLogs` and the two
filter inputs. -/
def applyFilters (st : AppState) : AppState :=
  { st with filteredLogs := filterLogs st.studyLogs st.filterSubject st.filterDate }

/-- Model of `clearFilters`: blank both filter inputs and copy the whole collection
into the view. -/
def clearFilters (st : AppState) : AppState :=
  { st with filterSubject := "", filterDate := none, filteredLogs := st.studyLogs }

/-- Model of `handleFormSubmit` at time `now` (= `Date.now()` in milliseconds):
build the session, validate (`!subject || duration <= 0`), and on success
prepend it (`unshift`) and persist.  Returns the new state and the
notification text.  Note that `filteredLogs` is not touched. -/
def handleFormSubmit (st : AppState) (input : FormInput) (now : Nat) :
    AppState × String :=
  let studySession : StudySession :=
    { id := Nat.repr now
      subject := jsTrim input.subject
      duration := input.duration
      timeUnit := input.timeUnit
      date := input.date
      notes := jsTrim input.notes
      timestamp := now }
  if studySession.subject == "" || jsLE0 studySession.duration then
    (st, "Please fill in all required fields correctly.")
  else
    let logs := studySession :: st.studyLogs
    ({ st with studyLogs := logs, storage := saveToLocalStorage logs },
      "Study session added successfully!")

/-- Model of `deleteLog`: drop every log whose id equals the given id, persist, and
notify success unconditionally.  `filteredLogs` is not touched and the
method has no other result. -/
def deleteLog (st : AppState) (id : String) : AppState × String :=
  let logs := st.studyLogs.filter (fun log => log.id != id)
  ({ st with studyLogs := logs, storage := saveToLocalStorage logs },
    "Study session deleted successfully!")

/-- Model of `handleModalConfirm` with `currentAction = clearAll`: empty the
collection and persist.  `filteredLogs` is not touched. -/
def handleModalConfirm (st : AppState) : AppState × String :=
  ({ st with studyLogs := [], storage := saveToLocalStorage [] },
    "All study sessions cleared!")

/-- State of a fresh `StudyTracker` whose durable slot was missing:
`loadFromLocalStorage` yields the empty array, and the constructor copies
it into `filteredLogs`. -/
def initialState : AppState :=
  { studyLogs := [], filteredLogs := [], filterSubject := "",
    filterDate := none, storage := none }

/-- A sequence of form submissions, each with its `Date.now()` reading. -/
def addAll (init : AppState) (evs : List (FormInput × Nat)) : AppState :=
  evs.foldl (fun st e => (handleFormSubmit st e.1 e.2).1) init

/-- The validation test of `handleFormSubmit`, as a predicate on the raw
input (true when the submission is accepted). -/
def eventIsValid (input : FormInput) : Bool :=
  !(jsTrim input.subject == "" || jsLE0 input.duration)

/-- Model of `calculateTotalMinutes`: sum of per-log minutes, hours counting 60-fold;
any `NaN` duration poisons the total, as in JavaScript. -/
def calculateTotalMinutes (logs : List StudySession) : JSNum :=
  logs.foldl
    (fun total log =>
      jsAdd total (if log.timeUnit == "hours" then jsMul60 log.duration else log.duration))
    (some 0)

/-- JavaScript `getDay()` of epoch day `d` (0 = Sunday): day 0 was a
Thursday. -/
def dayOfWeek (d : Int) : Int := (d + 4) % 7

/-- The `startOfWeek` computed by `getWeekLogs`:
`today.getDate() - today.getDay()`, at start of day. -/
def weekStartOf (today : Int) : Int := today - dayOfWeek today

/-- Model of `getWeekLogs` with the wall clock reading `today`: every log whose date
is on or after the start of the week. -/
def getWeekLogs (logs : List StudySession) (today : Int) : List StudySession :=
  logs.filter (fun log => decide (weekStartOf today ≤ log.date))

/-- The week total displayed by `updateSummary`. -/
def weekTotal (logs : List StudySession) (today : Int) : JSNum :=
  calculateTotalMinutes (getWeekLogs logs today)

/-- The today total displayed by `updateSummary`. -/
def todayTotal (logs : List StudySession) (today : Int) : JSNum :=
  calculateTotalMinutes (logs.filter (fun log => log.date == today))

/-- Model of `formatDuration` on an integer number of minutes (the claims only
concern integer inputs; a `NaN` total would render as a `NaN` string). -/
def formatDuration (minutes : Int) : String :=
  if minutes < 60 then toString minutes ++ " min"
  else
    let hours := minutes / 60
    let remainingMinutes := minutes % 60
    if remainingMinutes > 0 then
      toString hours ++ "h " ++ toString remainingMinutes ++ "m"
    else toString hours ++ "h"

/-- The date window built by `renderDailyChart`: for `i` from 6 down to 0 it
pushes `today - i`, so the list is the 7 days ending at `today`, oldest
first. -/
def dailyDates (today : Int) : List Int :=
  (List.range 7).map (fun (i : Nat) => today - 6 + (i : Int))

/-- The data series computed by `renderDailyChart` with the wall clock
reading `today`: when the collection is empty the method draws the
no-data message and returns without computing any series (`none`);
otherwise each window date is paired with the total minutes of the logs
dated exactly that day. -/
def renderDailyChartData (logs : List StudySession) (today : Int) :
    Option (List (Int × JSNum)) :=
  if logs.isEmpty then none
  else
    some ((dailyDates today).map
      (fun d => (d, calculateTotalMinutes (logs.filter (fun log => log.date == d)))))

/-- Sample concrete inputs used by the concrete evaluations below. -/
def validInput : FormInput :=
  { subject := "Math", duration := some 30, timeUnit := "minutes", date := 0, notes := "" }

def secondInput : FormInput :=
  { subject := "Physics", duration := some 45, timeUnit := "minutes", date := 0, notes := "" }

def inputEmptySubject : FormInput :=
  { subject := "", duration := some 30, timeUnit := "minutes", date := 0, notes := "" }

def inputZeroDuration : FormInput :=
  { subject := "Math", duration := some 0, timeUnit := "minutes", date := 0, notes := "" }

/-- A stored session with id "1". -/
def sampleSession : StudySession :=
  { id := "1", subject := "Math", duration := some 30, timeUnit := "minutes",
    date := 0, notes := "", timestamp := 0 }

/-- A session dated epoch day 4 (1970-01-05, a Monday), worth 45 minutes. -/
def mondaySession : StudySession :=
  { id := "2", subject := "Math", duration := some 45, timeUnit := "minutes",
    date := 4, notes := "", timestamp := 0 }

/-- A state holding exactly `sampleSession`, with a consistent filtered view
and no active filters (reachable by adding the session and then running
`applyFilters`). -/
def stWithOne : AppState :=
  { studyLogs := [sampleSession], filteredLogs := [sampleSession],
    filterSubject := "", filterDate := none, storage := none }

/-!
### General lemmas

Helper facts about the JavaScript primitives modelled above: correctness of
the decimal rendering used for session ids, and of the substring scan used
by the filter.
-/

theorem toDigitsCore_eq_reprDigits (n : Nat) :
    ∀ (fuel : Nat) (ds : List Char), n < fuel →
      Nat.toDigitsCore 10 fuel n ds = reprDigits n ++ ds := by
  induction n using Nat.strong_induction_on with
  | _ n ih =>
    intro fuel ds hfuel
    match fuel with
    | 0 => omega
    | f + 1 =>
      by_cases h10 : n < 10
      · have hdiv : n / 10 = 0 := by omega
        have hmod : n % 10 = n := by omega
        simp [Nat.toDigitsCore, hdiv, reprDigits, h10, hmod]
      · have hdiv : ¬ (n / 10 = 0) := by omega
        have hlt : n / 10 < n := by omega
        have hfl : n / 10 < f := by omega
        simp only [Nat.toDigitsCore, hdiv, if_false]
        rw [ih (n / 10) hlt f _ hfl]
        conv_rhs => rw [reprDigits]
        simp [h10]

theorem reprDigits_eq (n : Nat) :
    reprDigits n =
      if n < 10 then [Nat.digitChar n]
      else reprDigits (n / 10) ++ [Nat.digitChar (n % 10)] := by
  rw [reprDigits]

theorem reprDigits_ne_nil (n : Nat) : reprDigits n ≠ [] := by
  rw [reprDigits_eq]
  split
  · simp
  · simp

theorem digitChar_injOn :
    ∀ a : Nat, a < 10 → ∀ b : Nat, b < 10 → Nat.digitChar a = Nat.digitChar b → a = b := by
  decide

theorem reprDigits_injective (a : Nat) : ∀ b : Nat, reprDigits a = reprDigits b → a = b := by
  induction a using Nat.strong_induction_on with
  | _ a ih =>
    intro b h
    by_cases ha : a < 10 <;> by_cases hb : b < 10
    · rw [reprDigits_eq a, if_pos ha, reprDigits_eq b, if_pos hb] at h
      exact digitChar_injOn a ha b hb (by injection h)
    · rw [reprDigits_eq a, if_pos ha, reprDigits_eq b, if_neg hb] at h
      have := congrArg List.length h
      have hne := reprDigits_ne_nil (b / 10)
      simp [List.length_append] at this
      cases hcons : reprDigits (b / 10) with
      | nil => exact absurd hcons hne
      | cons x xs => rw [hcons] at this; simp at this
    · rw [reprDigits_eq a, if_neg ha, reprDigits_eq b, if_pos hb] at h
      have := congrArg List.length h
      have hne := reprDigits_ne_nil (a / 10)
      simp [List.length_append] at this
      cases hcons : reprDigits (a / 10) with
      | nil => exact absurd hcons hne
      | cons x xs => rw [hcons] at this; simp at this
    · rw [reprDigits_eq a, if_neg ha, reprDigits_eq b, if_neg hb] at h
      have hlen : ([Nat.digitChar (a % 10)] : List Char).length =
          ([Nat.digitChar (b % 10)] : List Char).length := rfl
      obtain ⟨h1, h2⟩ := List.append_inj' h hlen
      have hdivlt : a / 10 < a := by omega
      have hdiv := ih (a / 10) hdivlt (b / 10) h1
      have hmod : a % 10 = b % 10 :=
        digitChar_injOn _ (by omega) _ (by omega) (by injection h2)
      omega

theorem natRepr_injective : Function.Injective Nat.repr := by
  intro a b h
  unfold Nat.repr at h
  have hlist : Nat.toDigits 10 a = Nat.toDigits 10 b := by
    have := congrArg String.data h
    simpa [List.asString] using this
  unfold Nat.toDigits at hlist
  rw [toDigitsCore_eq_reprDigits a (a + 1) [] (by omega),
    toDigitsCore_eq_reprDigits b (b + 1) [] (by omega)] at hlist
  simp at hlist
  exact reprDigits_injective a b hlist

theorem includesCore_iff (needle hay : List Char) :
    includesCore needle hay = true ↔ needle <:+: hay := by
  induction hay with
  | nil =>
    simp [includesCore, List.isEmpty_iff]
  | cons c rest ih =>
    rw [includesCore, List.infix_cons_iff]
    simp [ List.isPrefixOf_iff_prefix, ih]

theorem jsIncludes_iff (s needle : String) :
    jsIncludes s needle = true ↔ needle.data <:+: s.data :=
  includesCore_iff needle.data s.data

theorem addAll_ids (evs : List (FormInput × Nat)) : ∀ st : AppState,
    (addAll st evs).studyLogs.map (fun l => l.id) =
      ((evs.filter (fun e => eventIsValid e.1)).map (fun e => Nat.repr e.2)).reverse ++
        st.studyLogs.map (fun l => l.id) := by
  induction evs with
  | nil => intro st; simp [addAll]
  | cons e evs ih =>
    intro st
    have hstep : addAll st (e :: evs) = addAll (handleFormSubmit st e.1 e.2).1 evs := by
      simp [addAll]
    rw [hstep, List.filter_cons]
    by_cases hv : eventIsValid e.1 = true
    · have hcond : (jsTrim e.1.subject == "" || jsLE0 e.1.duration) = false := by
        revert hv; unfold eventIsValid
        cases jsTrim e.1.subject == "" || jsLE0 e.1.duration <;> simp
      rw [hv]
      have hlogs : (handleFormSubmit st e.1 e.2).1.studyLogs =
          { id := Nat.repr e.2, subject := jsTrim e.1.subject,
            duration := e.1.duration, timeUnit := e.1.timeUnit, date := e.1.date,
            notes := jsTrim e.1.notes, timestamp := e.2 } :: st.studyLogs := by
        rw [handleFormSubmit]
        simp [hcond]
      rw [ih, hlogs]
      simp
    · have hcond : (jsTrim e.1.subject == "" || jsLE0 e.1.duration) = true := by
        revert hv; unfold eventIsValid
        cases jsTrim e.1.subject == "" || jsLE0 e.1.duration <;> simp
      have hret : (handleFormSubmit st e.1 e.2).1 = st := by
        rw [handleFormSubmit]
        simp [hcond]
      have hvf : eventIsValid e.1 = false := by
        cases he : eventIsValid e.1
        · rfl
        · exact absurd he hv
      rw [ih, hret, hvf]
      simp

/-!
### The claims
-/

/-- Claim C1, counterexample: two validated form submissions landing in the
same millisecond (`Date.now()` reads 5 both times) both receive the id
token rendered from 5, so the resulting collection's ids are not pairwise
distinct. -/
theorem c1_duplicate_ids_same_millisecond :
    ((addAll initialState [(validInput, 5), (secondInput, 5)]).studyLogs.map
      (fun l => l.id)) = ["5", "5"] ∧
    ¬ ((addAll initialState [(validInput, 5), (secondInput, 5)]).studyLogs.map
      (fun l => l.id)).Nodup := by
  constructor
  · decide
  · decide

/-- Claim C1, amended: starting from the empty collection, after any
sequence of form submissions whose `Date.now()` readings are pairwise
distinct, the ids of all sessions in the collection are pairwise
distinct (submissions failing validation add nothing). -/
theorem c1_ids_distinct_for_distinct_times (evs : List (FormInput × Nat))
    (h : (evs.map (fun e => e.2)).Nodup) :
    ((addAll initialState evs).studyLogs.map (fun l => l.id)).Nodup := by
  rw [addAll_ids evs initialState]
  simp only [initialState, List.map_nil, List.append_nil]
  rw [List.nodup_reverse]
  have h1 : ((evs.filter (fun e => eventIsValid e.1)).map (fun e => e.2)).Nodup :=
    h.sublist ((List.filter_sublist evs).map _)
  have h2 : (evs.filter (fun e => eventIsValid e.1)).map (fun e => Nat.repr e.2) =
      ((evs.filter (fun e => eventIsValid e.1)).map (fun e => e.2)).map Nat.repr := by
    rw [List.map_map]; rfl
  rw [h2]
  exact h1.map natRepr_injective

/-- Claim C1, witness: two submissions at distinct times 5 and 6 give
distinct ids. -/
theorem c1_ids_distinct_witness :
    (([(validInput, 5), (secondInput, 6)] : List (FormInput × Nat)).map
      (fun e => e.2)).Nodup ∧
    ((addAll initialState [(validInput, 5), (secondInput, 6)]).studyLogs.map
      (fun l => l.id)).Nodup :=
  ⟨by decide, c1_ids_distinct_for_distinct_times [(validInput, 5), (secondInput, 6)] (by decide)⟩

/-- Claim C2 (code bug, evaluated at the failing inputs): mutations do not
recompute the filtered view.  Adding a valid session to a fresh store with
no active filters leaves `filteredLogs` empty, which differs from the
filter criteria applied to the new collection; deleting the only session
from a consistent store leaves the deleted session in `filteredLogs`; and
clear-all also leaves the view populated. -/
theorem c2_filtered_view_stale_after_mutation :
    ((handleFormSubmit initialState validInput 5).1.studyLogs ≠ []) ∧
    ((handleFormSubmit initialState validInput 5).1.filteredLogs = []) ∧
    ((handleFormSubmit initialState validInput 5).1.filteredLogs ≠
      filterLogs (handleFormSubmit initialState validInput 5).1.studyLogs
        (handleFormSubmit initialState validInput 5).1.filterSubject
        (handleFormSubmit initialState validInput 5).1.filterDate) ∧
    ((deleteLog stWithOne "1").1.studyLogs = []) ∧
    ((deleteLog stWithOne "1").1.filteredLogs = [sampleSession]) ∧
    ((handleModalConfirm stWithOne).1.studyLogs = []) ∧
    ((handleModalConfirm stWithOne).1.filteredLogs = [sampleSession]) := by
  refine ⟨by decide, by decide, by decide, by decide, by decide, by decide, by decide⟩

/-- Claim C3, counterexample: epoch day 3 (1970-01-04) is a Sunday, and
with `today` that Sunday a session dated the following Monday (day 4) is
still included in the week logs, so `weekTotal` is 45 rather than the 0
that "only that day's sessions" would give. -/
theorem c3_sunday_includes_future_session :
    dayOfWeek 3 = 0 ∧ mondaySession.date ≠ 3 ∧
    getWeekLogs [mondaySession] 3 = [mondaySession] ∧
    weekTotal [mondaySession] 3 = some 45 := by
  refine ⟨by decide, by decide, by decide, by decide⟩

/-- Claim C3, amended: a session is in the week logs iff its date is on or
after the start of the week; the week start is the most recent Sunday at
or before `today` (it is a Sunday, is at most `today`, is less than 7 days
back, and no later Sunday fits), so a session dated exactly that Sunday
is included; and when `today` is itself a Sunday the week logs are exactly
the sessions dated on or after `today` itself (future-dated sessions
included).  `weekTotal` sums exactly these logs. -/
theorem c3_week_window_characterization (logs : List StudySession) (today : Int) :
    (∀ l, l ∈ getWeekLogs logs today ↔ l ∈ logs ∧ weekStartOf today ≤ l.date) ∧
    dayOfWeek (weekStartOf today) = 0 ∧ weekStartOf today ≤ today ∧
    today - weekStartOf today < 7 ∧
    (∀ d : Int, dayOfWeek d = 0 → d ≤ today → d ≤ weekStartOf today) ∧
    (dayOfWeek today = 0 →
      ∀ l, l ∈ getWeekLogs logs today ↔ l ∈ logs ∧ today ≤ l.date) ∧
    weekTotal logs today = calculateTotalMinutes (getWeekLogs logs today) := by
  refine ⟨fun l => ?_, ?_, ?_, ?_, fun d hd hdle => ?_, fun hsun l => ?_, rfl⟩
  · rw [getWeekLogs, List.mem_filter]; simp
  · unfold dayOfWeek weekStartOf dayOfWeek; omega
  · unfold weekStartOf dayOfWeek; omega
  · unfold weekStartOf dayOfWeek; omega
  · unfold dayOfWeek at hd; unfold weekStartOf dayOfWeek; omega
  · have hws : weekStartOf today = today := by
      unfold weekStartOf; rw [hsun]; omega
    rw [getWeekLogs, List.mem_filter, hws]; simp

/-- Claim C3, witness: on Sunday day 3 the Monday-dated session is in the
week logs because its date is on or after `today`. -/
theorem c3_week_window_witness :
    dayOfWeek 3 = 0 ∧
    (mondaySession ∈ getWeekLogs [mondaySession] 3 ↔
      mondaySession ∈ [mondaySession] ∧ (3 : Int) ≤ mondaySession.date) :=
  ⟨by decide,
    ((c3_week_window_characterization [mondaySession] 3).2.2.2.2.2.1 (by decide)) mondaySession⟩

/-- Claim C4, counterexample: both failure modes (empty-after-trim subject,
and duration 0) produce the one generic notification text, so the
validation error does not identify which field failed; the collection is
unchanged in both cases. -/
theorem c4_error_does_not_identify_field :
    (handleFormSubmit initialState inputEmptySubject 5).2 =
      "Please fill in all required fields correctly." ∧
    (handleFormSubmit initialState inputZeroDuration 5).2 =
      (handleFormSubmit initialState inputEmptySubject 5).2 ∧
    (handleFormSubmit initialState inputEmptySubject 5).1.studyLogs =
      initialState.studyLogs ∧
    (handleFormSubmit initialState inputZeroDuration 5).1.studyLogs =
      initialState.studyLogs := by
  refine ⟨by decide, by decide, by decide, by decide⟩

/-- Claim C4, amended: for every input whose subject trims to empty or
whose parsed duration is an integer at most 0, the submission returns one
generic validation message (the same for either failing field) and the
whole state -- collection, filtered view, filters and durable storage --
is returned unchanged. -/
theorem c4_validation_rejects_unchanged (st : AppState) (input : FormInput) (now : Nat)
    (h : jsTrim input.subject = "" ∨ ∃ d : Int, input.duration = some d ∧ d ≤ 0) :
    handleFormSubmit st input now = (st, "Please fill in all required fields correctly.") := by
  rw [handleFormSubmit]
  have hcond : (jsTrim input.subject == "" || jsLE0 input.duration) = true := by
    rcases h with h | ⟨d, hd, hdle⟩
    · simp [h]
    · simp [jsLE0, hd, hdle]
  simp [hcond]

/-- Claim C4, witness: the empty-subject input is rejected with the generic
message and the initial state is unchanged. -/
theorem c4_validation_witness :
    (jsTrim inputEmptySubject.subject = "" ∨
      ∃ d : Int, inputEmptySubject.duration = some d ∧ d ≤ 0) ∧
    handleFormSubmit initialState inputEmptySubject 5 =
      (initialState, "Please fill in all required fields correctly.") :=
  ⟨Or.inl (by decide),
    c4_validation_rejects_unchanged initialState inputEmptySubject 5 (Or.inl (by decide))⟩

/-- Claim C5, counterexample: deleting a nonexistent id leaves the
collection unchanged, but the operation reports the unconditional success
notification -- identical to the one produced when a removal does occur --
so it does not return false (or any no-removal signal) on absence. -/
theorem c5_remove_absent_reports_success :
    (deleteLog stWithOne "nonexistent").1.studyLogs = stWithOne.studyLogs ∧
    (deleteLog stWithOne "nonexistent").2 = "Study session deleted successfully!" ∧
    (deleteLog stWithOne "nonexistent").2 = (deleteLog stWithOne "1").2 := by
  refine ⟨by decide, by decide, by decide⟩

/-- Claim C5, amended: for every id not present in the collection, delete
leaves the collection unchanged and never errors, but its only report is
the unconditional success notification rather than false. -/
theorem c5_remove_absent_noop (st : AppState) (id : String)
    (h : ∀ l ∈ st.studyLogs, l.id ≠ id) :
    (deleteLog st id).1.studyLogs = st.studyLogs ∧
    (deleteLog st id).2 = "Study session deleted successfully!" := by
  refine ⟨?_, rfl⟩
  show st.studyLogs.filter (fun log => log.id != id) = st.studyLogs
  rw [List.filter_eq_self]
  intro a ha
  simpa using h a ha

/-- Claim C5, witness: deleting an id absent from the one-session store. -/
theorem c5_remove_absent_witness :
    (∀ l ∈ stWithOne.studyLogs, l.id ≠ "nonexistent") ∧
    ((deleteLog stWithOne "nonexistent").1.studyLogs = stWithOne.studyLogs ∧
      (deleteLog stWithOne "nonexistent").2 = "Study session deleted successfully!") :=
  ⟨by decide, c5_remove_absent_noop stWithOne "nonexistent" (by decide)⟩

/-- Claim C6, counterexample: slot content that is well-formed JSON but not
a session array (the number 42) is returned as parsed, not replaced by the
empty collection. -/
theorem c6_nonarray_json_returned :
    loadFromLocalStorage (some (SlotContent.wellFormed (Json.num 42))) = Json.num 42 ∧
    Json.num 42 ≠ Json.arr [] := by
  refine ⟨rfl, fun h => Json.noConfusion h⟩

/-- Claim C6, amended: load returns the empty collection, without raising,
exactly for a missing slot, an empty-string slot, or content on which the
JSON parse throws; content that parses is returned as-is even when it is
not a session array. -/
theorem c6_load_missing_or_unparseable_empty :
    loadFromLocalStorage none = Json.arr [] ∧
    loadFromLocalStorage (some SlotContent.emptyStr) = Json.arr [] ∧
    ∀ raw : String, loadFromLocalStorage (some (SlotContent.malformed raw)) = Json.arr [] :=
  ⟨rfl, rfl, fun _ => rfl⟩

/-- Claim C7: a session is in the filtered result iff it is in the
collection, the subject criterion is empty or the lowercased subject
contains the lowercased criterion as a contiguous substring, and the date
criterion is absent or equal to the session's date; and the result is a
sublist of the input, so the collection's order is preserved. -/
theorem c7_filter_membership_order (logs : List StudySession) (sf : String)
    (df : Option Int) :
    (filterLogs logs sf df).Sublist logs ∧
    ∀ l, l ∈ filterLogs logs sf df ↔ l ∈ logs ∧
      (sf = "" ∨ (lowerStr sf).data <:+: (lowerStr l.subject).data) ∧
      (df = none ∨ df = some l.date) := by
  refine ⟨List.filter_sublist _, fun l => ?_⟩
  rw [filterLogs, List.mem_filter]
  simp [logFilterPred, jsIncludes_iff]

/-- Claim C8, counterexample: on the empty collection the daily chart takes
the no-data branch and computes no series at all, so it does not return 7
entries. -/
theorem c8_empty_collection_no_series :
    renderDailyChartData ([] : List StudySession) 0 = none ∧
    ¬ ∃ s, renderDailyChartData ([] : List StudySession) 0 = some s ∧ s.length = 7 := by
  refine ⟨rfl, ?_⟩
  rintro ⟨s, hs, -⟩
  rw [renderDailyChartData] at hs
  simp at hs

/-- Claim C8, amended: for every non-empty collection the daily series has
exactly 7 entries, entry `i` carrying date `today - 6 + i` (so oldest
first, ending at `today`) and the total minutes of the sessions dated
exactly that day; the series is unaffected by any session dated outside
the 7-day window.  The empty collection yields no series. -/
theorem c8_daily_series_seven_entries (logs : List StudySession) (today : Int)
    (h : logs ≠ []) :
    ∃ s, renderDailyChartData logs today = some s ∧ s.length = 7 ∧
      (∀ i (hi : i < s.length), s.get ⟨i, hi⟩ =
        (today - 6 + (i : Int),
          calculateTotalMinutes (logs.filter (fun log => log.date == today - 6 + (i : Int))))) ∧
      (∀ extra : StudySession, extra.date < today - 6 ∨ today < extra.date →
        renderDailyChartData (extra :: logs) today = renderDailyChartData logs today) := by
  have hne : logs.isEmpty = false := by simpa [List.isEmpty_iff] using h
  refine ⟨(dailyDates today).map
    (fun d => (d, calculateTotalMinutes (logs.filter (fun log => log.date == d)))),
    ?_, ?_, ?_, ?_⟩
  · rw [renderDailyChartData, hne]; simp
  · simp only [dailyDates, List.length_map, List.length_range]
  · intro i hi
    simp only [List.get_eq_getElem, dailyDates, List.getElem_map, List.getElem_range]
  · intro extra hout
    have hfilter : ∀ d ∈ dailyDates today,
        (extra :: logs).filter (fun log => log.date == d) =
          logs.filter (fun log => log.date == d) := by
      intro d hd
      simp only [dailyDates, List.mem_map] at hd
      obtain ⟨i, hi, rfl⟩ := hd
      rw [List.mem_range] at hi
      rw [List.filter_cons]
      have hne2 : (extra.date == today - 6 + (i : Int)) = false := by
        rw [beq_eq_false_iff_ne]
        rcases hout with hout | hout <;> omega
      simp [hne2]
    rw [renderDailyChartData, renderDailyChartData, hne]
    simp only [List.isEmpty_cons, if_false]
    refine congrArg some (List.map_congr_left ?_)
    intro d hd
    rw [hfilter d hd]

/-- Claim C8, witness: the one-session collection yields a 7-entry series. -/
theorem c8_daily_series_witness :
    ([sampleSession] : List StudySession) ≠ [] ∧
    ∃ s, renderDailyChartData [sampleSession] 0 = some s ∧ s.length = 7 := by
  refine ⟨by simp, ?_⟩
  obtain ⟨s, h1, h2, -, -⟩ := c8_daily_series_seven_entries [sampleSession] 0 (by simp)
  exact ⟨s, h1, h2⟩

/-- Claim C9: for every non-negative integer number of minutes, the
formatter renders "(m) min" below 60, "(h)h" at a multiple of 60, and
"(h)h (r)m" otherwise, with h the floor quotient and r the remainder by
60. -/
theorem c9_format_minutes_spec (m : Int) (_h : 0 ≤ m) :
    (m < 60 → formatDuration m = toString m ++ " min") ∧
    (60 ≤ m → m % 60 = 0 → formatDuration m = toString (m / 60) ++ "h") ∧
    (60 ≤ m → m % 60 ≠ 0 →
      formatDuration m = toString (m / 60) ++ "h " ++ toString (m % 60) ++ "m") := by
  refine ⟨fun hlt => ?_, fun hge hmod => ?_, fun hge hmod => ?_⟩
  · rw [formatDuration, if_pos hlt]
  · rw [formatDuration, if_neg (by omega)]
    simp only []
    rw [if_neg (by omega)]
  · rw [formatDuration, if_neg (by omega)]
    simp only []
    rw [if_pos (by omega)]

/-- Claim C9, witness: 90 minutes is at least 60 with remainder 30, and
formats as the quotient-remainder rendering. -/
theorem c9_format_minutes_witness :
    (0 : Int) ≤ 90 ∧ (60 : Int) ≤ 90 ∧ (90 : Int) % 60 ≠ 0 ∧
    formatDuration 90 =
      toString ((90 : Int) / 60) ++ "h " ++ toString ((90 : Int) % 60) ++ "m" :=
  ⟨by decide, by decide, by decide,
    (c9_format_minutes_spec 90 (by decide)).2.2 (by decide) (by decide)⟩

/-- Claim C10: delete removes exactly the sessions whose id equals the
given id -- every occurrence, not only the first -- and the remaining
sessions form a sublist of the original collection (same relative order,
same records). -/
theorem c10_delete_all_occurrences (st : AppState) (id : String) :
    ((deleteLog st id).1.studyLogs).Sublist st.studyLogs ∧
    ∀ l, l ∈ (deleteLog st id).1.studyLogs ↔ l ∈ st.studyLogs ∧ l.id ≠ id := by
  refine ⟨List.filter_sublist _, fun l => ?_⟩
  rw [deleteLog, List.mem_filter]
  simp

end StudyTracker
